import Mathlib

/- Verification development for the goal-tracker progress-scoring engine
(`tracker.py`).  Dates are embedded as Python ordinals (`date.toordinal()`,
an integer; day 1 is 0001-01-01, a Monday), stored values as an inductive
covering Python `int` / `float` / `str` after CSV conversion, Python numeric
arithmetic as exact rational arithmetic, and raising code as `Except`. -/

namespace GoalTracker

/-- Day numbers follow Python `date.toordinal()`: day 1 is 0001-01-01 (a Monday). -/
abbrev Date := Int

/-- Python `date.weekday()`: Monday is 0, Sunday is 6. -/
def weekday (d : Date) : Int := (d - 1) % 7

/-- Python `//` (floor division) on integers. -/
def pyFloorDiv (a b : Int) : Int := Int.fdiv a b

/-- Numeric value of a decimal digit character. -/
def digitVal (c : Char) : Nat := c.toNat - 48

/-- True when the list is nonempty and all its characters are decimal digits. -/
def isDigits (l : List Char) : Bool := !l.isEmpty && l.all Char.isDigit

/-- Natural number denoted by a list of decimal digits. -/
def natOfDigits (l : List Char) : Nat := l.foldl (fun a c => a * 10 + digitVal c) 0

/-- Unsigned part of Python `float(s)` string parsing: decimal digits with an
optional fractional part (accepts `"12"`, `"2."`, `".75"`, `"3.5"`). -/
def parseUnsignedFloat? (l : List Char) : Option Rat :=
  let ip := l.takeWhile (fun c => c != '.')
  match l.dropWhile (fun c => c != '.') with
  | [] => if isDigits ip then some (natOfDigits ip : Rat) else none
  | _ :: fp =>
    if fp.contains '.' then none
    else if (isDigits ip || ip.isEmpty) && (isDigits fp || fp.isEmpty)
        && !(ip.isEmpty && fp.isEmpty) then
      some ((natOfDigits ip : Rat) + (natOfDigits fp : Rat) / (10 : Rat) ^ fp.length)
    else none

/-- Embedding of Python `float(s)` on strings: optional sign followed by a
decimal literal; `none` where Python raises `ValueError`. -/
def parseFloat? (s : String) : Option Rat :=
  match s.data with
  | '-' :: rest => (parseUnsignedFloat? rest).map (fun q => -q)
  | '+' :: rest => parseUnsignedFloat? rest
  | l => parseUnsignedFloat? l

/-- Embedding of Python `int(s)` on strings: optional sign and decimal digits. -/
def parseInt? (s : String) : Option Int :=
  match s.data with
  | '-' :: rest => if isDigits rest then some (-(natOfDigits rest : Int)) else none
  | '+' :: rest => if isDigits rest then some (natOfDigits rest : Int) else none
  | l => if isDigits l then some (natOfDigits l : Int) else none

/-- Leap-year test of the proleptic Gregorian calendar, as in Python `datetime`. -/
def isLeapYear (y : Nat) : Bool := (y % 4 == 0 && y % 100 != 0) || y % 400 == 0

/-- Number of days in a month. -/
def daysInMonth (y m : Nat) : Nat :=
  if m == 2 then (if isLeapYear y then 29 else 28)
  else if m == 4 || m == 6 || m == 9 || m == 11 then 30
  else 31

/-- Proleptic-Gregorian ordinal of a civil date, matching Python
`date(y, m, d).toordinal()` (day 1 is 0001-01-01). -/
def toOrdinal (y m d : Nat) : Int :=
  let yy := if m ≤ 2 then y - 1 else y
  let era := yy / 400
  let yoe := yy % 400
  let mp := (m + 9) % 12
  let doy := (153 * mp + 2) / 5 + (d - 1)
  let doe := yoe * 365 + yoe / 4 - yoe / 100 + doy
  (era * 146097 + doe : Int) - 719468 + 719163

/-- Splitting a character list on a separator, Python `str.split` style. -/
def splitOnChar (sep : Char) : List Char → List (List Char)
  | [] => [[]]
  | c :: rest =>
    match splitOnChar sep rest with
    | [] => if c == sep then [[], []] else [[c]]
    | g :: gs => if c == sep then [] :: g :: gs else (c :: g) :: gs

/-- Embedding of `datetime.strptime(s, "%Y-%m-%d").date().toordinal()`: the
ordinal of the parsed calendar date, or `none` where `strptime` raises. -/
def parseDate? (s : String) : Option Date :=
  match splitOnChar '-' s.data with
  | [ys, ms, ds] =>
    if isDigits ys ∧ ys.length ≤ 4 ∧ isDigits ms ∧ ms.length ≤ 2
        ∧ isDigits ds ∧ ds.length ≤ 2 then
      let y := natOfDigits ys
      let m := natOfDigits ms
      let d := natOfDigits ds
      if 1 ≤ y ∧ 1 ≤ m ∧ m ≤ 12 ∧ 1 ≤ d ∧ d ≤ daysInMonth y m then
        some (toOrdinal y m d)
      else none
    else none
  | _ => none

/-- A stored entry value after CSV conversion: Python `int`, `float`, or `str`. -/
inductive Value
  | int (n : Int)
  | num (q : Rat)
  | str (s : String)
deriving DecidableEq, Repr

/-- Python truthiness of a stored value (`0`, `0.0` and `""` are falsy). -/
def truthy : Value → Bool
  | .int n => decide (n ≠ 0)
  | .num q => decide (q ≠ 0)
  | .str s => decide (s ≠ "")

/-- Python `float(v)` on a stored value; `none` where it raises. -/
def pyFloat? : Value → Option Rat
  | .int n => some (n : Rat)
  | .num q => some q
  | .str s => parseFloat? s

/-- Python `int(v)` on a stored value (floats truncate toward zero). -/
def pyInt? : Value → Option Int
  | .int n => some n
  | .num q => some (if q < 0 then -(Int.floor (-q)) else Int.floor q)
  | .str s => parseInt? s

/-- Embedding of `float(val) if val else 0` wrapped in `try/except` with
fallback 0: the numeric coercion used for `cumulative` sums and `latest`. -/
def coerceNum (v : Value) : Rat :=
  if truthy v then (pyFloat? v).getD 0 else 0

/-- One folded entry of the user-data store: the `{"type", "value"}` record. -/
structure Entry where
  type : String
  value : Value
deriving DecidableEq, Repr

/-- Keys of a Python dict in insertion order with their values: both levels of
the engine's `date → item_id → entry` store are association lists. -/
abbrev Dict (α : Type) := List (String × α)

/-- Python `d[k]` lookup (`none` when the key is absent). -/
def dget? {α : Type} : Dict α → String → Option α
  | [], _ => none
  | p :: rest, k => if p.1 = k then some p.2 else dget? rest k

/-- Python `d[k] = v`: overwrite the first occurrence in place if the key
exists, else append at the end (insertion order preserved). -/
def dset {α : Type} : Dict α → String → α → Dict α
  | [], k, v => [(k, v)]
  | p :: rest, k, v => if p.1 = k then (k, v) :: rest else p :: dset rest k v

/-- The folded user-data store consumed by every calculator. -/
abbrev UserData := Dict (Dict Entry)

/-- The `Objective` dataclass. -/
structure Objective where
  id : String
  name : String
  type : String
  frequency : String
  scoring : String
  start_value : Int
  target_value : Int
  unit : String := ""
  weight : Int := 1
  importance : String := "bien"
deriving DecidableEq, Repr

/-- The `Task` dataclass. -/
structure Task where
  id : String
  name : String
  weight : Int
deriving DecidableEq, Repr

/-- The `Program` dataclass. -/
structure Program where
  name : String
  start_date : String
  end_date : String
  objectives : List Objective
  tasks : List Task
deriving DecidableEq, Repr

/-- Python exceptions the embedded engine can raise. -/
inductive PyErr
  | zeroDiv
  | valueError
  | attrError
deriving DecidableEq, Repr

/-- The `{indispensable: 3, important: 2, bien: 1}` lookup, default 1. -/
def importanceMultiplier (importance : String) : Int :=
  if importance = "indispensable" then 3
  else if importance = "important" then 2
  else if importance = "bien" then 1
  else 1

/-- The record returned by `_get_weekly_boundaries`. -/
structure WeeklyInfo where
  first_monday : Int
  last_sunday : Int
  num_complete_weeks : Int
deriving DecidableEq, Repr

/-- Embedding of `_get_weekly_boundaries`. -/
def getWeeklyBoundaries (start_date end_date : Int) : WeeklyInfo :=
  let first_monday := if weekday start_date = 0 then start_date
    else start_date + (7 - weekday start_date)
  let last_sunday := if weekday end_date = 6 then end_date
    else end_date - (weekday end_date + 1)
  let num_complete_weeks := if last_sunday < first_monday then 0
    else pyFloorDiv (last_sunday - first_monday + 1) 7
  ⟨first_monday, last_sunday, num_complete_weeks⟩

/-- Loop of `_compute_daily_objective_points`: accumulates `weight` per truthy
entry; `none` models the early `return 0` on a truthy entry whose objective
type is not `checkbox`. -/
def dailyLoop (obj : Objective) : UserData → Option Int
  | [] => some 0
  | (_, day) :: rest =>
    match dget? day obj.id with
    | some e =>
      if truthy e.value then
        if obj.type = "checkbox" then (dailyLoop obj rest).map (obj.weight + ·)
        else none
      else dailyLoop obj rest
    | none => dailyLoop obj rest

/-- Embedding of `_compute_daily_objective_points`. -/
def computeDailyObjectivePoints (obj : Objective) (ud : UserData) : Int :=
  match dailyLoop obj ud with
  | none => 0
  | some total => total * importanceMultiplier obj.importance

/-- Grouping loop of `_compute_weekly_objective_points` (step 4): in iteration
order, the `(week_index, value)` pairs of in-window entries carrying the
objective's id; errors where `strptime` on a stored date key raises. -/
def collectWeekValues (obj : Objective) (first_monday last_sunday : Int) :
    UserData → Except PyErr (List (Int × Value))
  | [] => .ok []
  | (date_str, day) :: rest =>
    match dget? day obj.id with
    | some e =>
      match parseDate? date_str with
      | none => .error .valueError
      | some d =>
        if first_monday ≤ d ∧ d ≤ last_sunday then
          match collectWeekValues obj first_monday last_sunday rest with
          | .error er => .error er
          | .ok l => .ok ((pyFloorDiv (d - first_monday) 7, e.value) :: l)
        else collectWeekValues obj first_monday last_sunday rest
    | none => collectWeekValues obj first_monday last_sunday rest

/-- Week-scoring loop of `_compute_weekly_objective_points` (step 5): sums the
per-week points; `ok none` models the early `return 0` on an unsupported type
or scoring, `error` the `ZeroDivisionError` of the proportional branch. -/
def weeklyLoop (obj : Objective) : List (List Value) → Except PyErr (Option Rat)
  | [] => .ok (some 0)
  | wd :: rest =>
    let wv? : Option Rat :=
      if obj.type = "checkbox" then some (wd.length : Rat)
      else if obj.type = "cumulative" then some ((wd.map coerceNum).sum)
      else none
    match wv? with
    | none => .ok none
    | some wv =>
      if obj.scoring = "binary" then
        match weeklyLoop obj rest with
        | .error e => .error e
        | .ok none => .ok none
        | .ok (some r) =>
          .ok (some ((if (obj.target_value : Rat) ≤ wv then (obj.weight : Rat) else 0) + r))
      else if obj.scoring = "proportional" then
        if (obj.target_value : Rat) = 0 then .error .zeroDiv
        else
          match weeklyLoop obj rest with
          | .error e => .error e
          | .ok none => .ok none
          | .ok (some r) =>
            .ok (some ((obj.weight : Rat) * wv / (obj.target_value : Rat) + r))
      else .ok none

/-- Embedding of `_compute_weekly_objective_points`. -/
def computeWeeklyObjectivePoints (prog : Option Program) (obj : Objective)
    (ud : UserData) : Except PyErr Rat :=
  match prog with
  | none => .ok 0
  | some p =>
    if p.start_date = "" then .ok 0
    else if p.end_date = "" then .ok 0
    else
      match parseDate? p.start_date, parseDate? p.end_date with
      | some sd, some ed =>
        let wi := getWeeklyBoundaries sd ed
        if wi.num_complete_weeks = 0 then .ok 0
        else
          match collectWeekValues obj wi.first_monday wi.last_sunday ud with
          | .error e => .error e
          | .ok pairs =>
            let weeks := (List.range wi.num_complete_weeks.toNat).map
              (fun i => (pairs.filter (fun pr => pr.1 = (i : Int))).map Prod.snd)
            match weeklyLoop obj weeks with
            | .error e => .error e
            | .ok none => .ok 0
            | .ok (some tp) => .ok (tp * (importanceMultiplier obj.importance : Rat))
      | _, _ => .ok 0

/-- Entry values carrying the objective's id, in store iteration order
(`_compute_program_objective_points`, lines 472-476). -/
def programObjectiveData (obj : Objective) (ud : UserData) : List Value :=
  ud.filterMap (fun pr => (dget? pr.2 obj.id).map Entry.value)

/-- Aggregate value of a program-frequency objective
(`_compute_program_objective_points`, lines 478-501): count for `checkbox`,
numeric-coerced sum for `cumulative`, last value in iteration order for
`latest`; `none` models the early `return 0` on an unknown type. -/
def programObjectiveValue? (obj : Objective) (ud : UserData) : Option Rat :=
  let data := programObjectiveData obj ud
  if obj.type = "checkbox" then some (data.length : Rat)
  else if obj.type = "cumulative" then some ((data.map coerceNum).sum)
  else if obj.type = "latest" then some (coerceNum (data.getLast?.getD (.int 0)))
  else none

/-- Embedding of `_compute_program_objective_points`; the loaded program is a
direct argument since the source dereferences `self.program` unconditionally
(its date parse is unguarded and raises on malformed dates). -/
def computeProgramObjectivePoints (p : Program) (obj : Objective) (ud : UserData) :
    Except PyErr Rat :=
  match parseDate? p.start_date, parseDate? p.end_date with
  | some _, some _ =>
    match programObjectiveValue? obj ud with
    | none => .ok 0
    | some value =>
      let m : Rat := (importanceMultiplier obj.importance : Int)
      if obj.scoring = "binary" then
        .ok ((if (obj.target_value : Rat) ≤ value then (obj.weight : Rat) else 0) * m)
      else if obj.scoring = "proportional" then
        if obj.target_value < obj.start_value then
          .ok ((obj.weight : Rat) *
            (((obj.start_value : Rat) - value) /
              ((obj.start_value : Rat) - (obj.target_value : Rat))) * m)
        else if (obj.target_value : Rat) = 0 then .error .zeroDiv
        else .ok ((obj.weight : Rat) * value / (obj.target_value : Rat) * m)
      else .ok 0
  | _, _ => .error .valueError

/-- Embedding of `_compute_objective_points` (frequency dispatch). -/
def computeObjectivePoints (prog : Option Program) (obj : Objective) (ud : UserData) :
    Except PyErr Rat :=
  if obj.frequency = "daily" then .ok (computeDailyObjectivePoints obj ud : Rat)
  else if obj.frequency = "weekly" then computeWeeklyObjectivePoints prog obj ud
  else if obj.frequency = "program" then
    match prog with
    | none => .error .attrError
    | some p => computeProgramObjectivePoints p obj ud
  else .ok 0

/-- Embedding of `get_objective_max_points`. -/
def getObjectiveMaxPoints (prog : Option Program) (obj : Objective) : Int :=
  match prog with
  | none => 0
  | some p =>
    if p.start_date = "" then 0
    else if p.end_date = "" then 0
    else
      match parseDate? p.start_date, parseDate? p.end_date with
      | some sd, some ed =>
        let total_days := ed - sd + 1
        let wi := getWeeklyBoundaries sd ed
        let m := importanceMultiplier obj.importance
        if obj.frequency = "daily" then obj.weight * total_days * m
        else if obj.frequency = "weekly" then obj.weight * wi.num_complete_weeks * m
        else if obj.frequency = "program" then obj.weight * m
        else 0
      | _, _ => 0

/-- Per-objective `(obj_total_points, obj_expected_points)` accumulation of
`compute_progress` (lines 575-625). -/
def objectiveTotalExpected (wi : WeeklyInfo) (today total_days elapsed_days : Int)
    (obj : Objective) : Except PyErr (Rat × Rat) :=
  let m := importanceMultiplier obj.importance
  if obj.frequency = "daily" then
    .ok (((obj.weight * total_days * m : Int) : Rat), ((obj.weight * elapsed_days * m : Int) : Rat))
  else if obj.frequency = "weekly" then
    let tot : Int := obj.weight * wi.num_complete_weeks * m
    let exp : Int :=
      if wi.num_complete_weeks = 0 then 0
      else
        let elapsed_complete_weeks : Int :=
          if wi.first_monday ≤ today then
            if wi.last_sunday < today then wi.num_complete_weeks
            else min (pyFloorDiv (today - wi.first_monday + 1) 7) wi.num_complete_weeks
          else 0
        obj.weight * elapsed_complete_weeks * m
    .ok ((tot : Rat), (exp : Rat))
  else if obj.frequency = "program" then
    if (total_days : Rat) = 0 then .error .zeroDiv
    else .ok (((obj.weight * m : Int) : Rat),
      (obj.weight : Rat) * ((elapsed_days : Rat) / (total_days : Rat)) * (m : Rat))
  else .ok (0, 0)

/-- Objective loop of `compute_progress` (lines 569-631): the running
`(total_points, expected_points, current_points)` sums over the objectives. -/
def objectivesFold (prog : Option Program) (ud : UserData) (wi : WeeklyInfo)
    (today total_days elapsed_days : Int) :
    List Objective → Except PyErr (Rat × Rat × Rat)
  | [] => .ok (0, 0, 0)
  | obj :: rest =>
    match objectiveTotalExpected wi today total_days elapsed_days obj with
    | .error e => .error e
    | .ok (t, ex) =>
      match computeObjectivePoints prog obj ud with
      | .error e => .error e
      | .ok c =>
        match objectivesFold prog ud wi today total_days elapsed_days rest with
        | .error e => .error e
        | .ok (ts, exs, cs) => .ok (t + ts, ex + exs, c + cs)

/-- Task completion check of `compute_progress` (lines 639-645): some date
holds a truthy entry under the task's id. -/
def taskCompleted (ud : UserData) (id : String) : Bool :=
  ud.any (fun pr =>
    match dget? pr.2 id with
    | some e => truthy e.value
    | none => false)

/-- Task loop of `compute_progress` (lines 634-645): the running
`(total_points, expected_points, current_points)` sums over the tasks. -/
def tasksFold (ud : UserData) (total_days elapsed_days : Int) :
    List Task → Except PyErr (Rat × Rat × Rat)
  | [] => .ok (0, 0, 0)
  | t :: rest =>
    if (total_days : Rat) = 0 then .error .zeroDiv
    else
      match tasksFold ud total_days elapsed_days rest with
      | .error e => .error e
      | .ok (ts, exs, cs) =>
        .ok ((t.weight : Rat) + ts,
          (t.weight : Rat) * ((elapsed_days : Rat) / (total_days : Rat)) + exs,
          (if taskCompleted ud t.id then (t.weight : Rat) else 0) + cs)

/-- Python `round` on an exact rational: round half to even. -/
def pyRound (q : Rat) : Int :=
  let f := Int.floor q
  if q - f < 1/2 then f
  else if 1/2 < q - f then f + 1
  else if f % 2 = 0 then f else f + 1

/-- Python `round(x, 1)`: one decimal place. -/
def pyRound1 (q : Rat) : Rat := (pyRound (q * 10) : Rat) / 10

/-- The record returned by `compute_progress`. -/
structure ProgressResult where
  current_points : Rat
  total_points : Rat
  current_progress : Rat
  expected_progress : Rat
  elapsed_days : Int
  total_days : Int
  is_on_track : Bool
deriving DecidableEq, Repr

/-- Final percentage step of `compute_progress` (lines 647-663). -/
def finalizeProgress (current_points total_points expected_points : Rat)
    (elapsed_days total_days : Int) : ProgressResult :=
  let current_progress := if 0 < total_points then current_points / total_points * 100 else 0
  let expected_progress := if 0 < total_points then expected_points / total_points * 100 else 0
  { current_points := current_points
    total_points := total_points
    current_progress := pyRound1 current_progress
    expected_progress := pyRound1 expected_progress
    elapsed_days := elapsed_days
    total_days := total_days
    is_on_track := decide (expected_progress ≤ current_progress) }

/-- Embedding of `compute_progress`; `today` abstracts `datetime.now().date()`.
`ok none` is the explicit `return None`, `error` a propagated exception. -/
def computeProgress (prog : Option Program) (ud : UserData) (today : Int) :
    Except PyErr (Option ProgressResult) :=
  match prog with
  | none => .ok none
  | some p =>
    match parseDate? p.start_date, parseDate? p.end_date with
    | some sd, some ed =>
      let total_days := ed - sd + 1
      let elapsed_days := if today < sd then 0
        else if ed < today then total_days
        else today - sd + 1
      let wi := getWeeklyBoundaries sd ed
      match objectivesFold (some p) ud wi today total_days elapsed_days p.objectives with
      | .error e => .error e
      | .ok (t1, e1, c1) =>
        match tasksFold ud total_days elapsed_days p.tasks with
        | .error e => .error e
        | .ok (t2, e2, c2) =>
          .ok (some (finalizeProgress (c1 + c2) (t1 + t2) (e1 + e2) elapsed_days total_days))
    | _, _ => .ok none

/-- One row of `user_data.csv`. -/
structure Row where
  date : String
  item_id : String
  type : String
  value : String
deriving DecidableEq, Repr

/-- Python `str(value)` for the value shapes the tracker stores. -/
def pyStr : Value → String
  | .int n => toString n
  | .num q => toString q
  | .str s => s

/-- Update-or-append path of `save_user_data_entry` (lines 276-291): overwrite
the value of the first row matching `(date, item_id)`, else append a new row. -/
def updateRows (date item_id item_type : String) (value : Value) :
    List Row → List Row
  | [] => [⟨date, item_id, item_type, pyStr value⟩]
  | r :: rest =>
    if r.date = date ∧ r.item_id = item_id then
      { r with value := pyStr value } :: rest
    else r :: updateRows date item_id item_type value rest

/-- Embedding of `save_user_data_entry` on the CSV row list (lines 264-297):
a task write of value 0 deletes every row of that item id. -/
def saveUserDataEntry (rows : List Row) (date item_id item_type : String)
    (value : Value) : Except PyErr (List Row) :=
  if item_type = "task" then
    match pyInt? value with
    | none => .error .valueError
    | some n =>
      if n = 0 then .ok (rows.filter (fun r => r.item_id ≠ item_id))
      else .ok (updateRows date item_id item_type value rows)
  else .ok (updateRows date item_id item_type value rows)

/-- CSV value conversion of `get_user_data` (lines 227-238): numeric strings
become ints when whole, floats otherwise; anything else stays a string. -/
def convertValue (s : String) : Value :=
  match parseFloat? s with
  | some q => if q.den = 1 then .int q.num else .num q
  | none => .str s

/-- One row step of the `get_user_data` fold: ensure the date key exists, then
set the item entry inside it. -/
def userDataStep (ud : UserData) (r : Row) : UserData :=
  let day := (dget? ud r.date).getD []
  dset ud r.date (dset day r.item_id ⟨r.type, convertValue r.value⟩)

/-- Embedding of `get_user_data`: fold the CSV rows into the nested dict. -/
def getUserData (rows : List Row) : UserData :=
  rows.foldl userDataStep []

/-- Weekly proportional award of the aggregator path for one week
(`_compute_weekly_objective_points`, lines 452-453). -/
def weeklyProportionalAwardAgg (weight target : Int) (week_value : Rat) :
    Except PyErr Rat :=
  if (target : Rat) = 0 then .error .zeroDiv
  else .ok ((weight : Rat) * week_value / (target : Rat))

/-- Weekly proportional award of the breakdown path for one week
(`calculate_week_progress`, lines 753-756). -/
def weeklyProportionalAwardBreakdown (weight target : Int) (week_achievements : Rat) :
    Except PyErr Rat :=
  if (target : Rat) = 0 then .error .zeroDiv
  else .ok ((weight : Rat) * min (week_achievements / (target : Rat)) 1)

/-- Per-objective `total_points` of `calculate_detailed_breakdown`
(lines 842-847). -/
def breakdownObjectiveTotalPoints (total_days : Int) (obj : Objective) : Rat :=
  if obj.frequency = "daily" then ((obj.weight * total_days : Int) : Rat)
  else if obj.frequency = "weekly" then ((obj.weight * pyFloorDiv total_days 7 : Int) : Rat)
  else if obj.frequency = "program" then (total_days : Rat) / 2
  else 0

/-- The `totals.total_points` field of `calculate_detailed_breakdown` (the
summed points fields; the per-day chart record is not modelled). -/
def breakdownTotalPoints (prog : Option Program) : Rat :=
  match prog with
  | none => 0
  | some p =>
    if p.start_date = "" then 0
    else if p.end_date = "" then 0
    else
      match parseDate? p.start_date, parseDate? p.end_date with
      | some sd, some ed =>
        let total_days := ed - sd + 1
        (p.objectives.map (breakdownObjectiveTotalPoints total_days)).sum +
          (p.tasks.map (fun t => (t.weight : Rat))).sum
      | _, _ => 0

/-- Spec-side formulation of the weekly grouping: the entry values of the
objective whose date lies in `[first_monday, last_sunday]` and whose week
index `(date - first_monday) // 7` equals `i`, in store order. -/
def weekEntries (obj : Objective) (first_monday last_sunday i : Int) (ud : UserData) :
    List Value :=
  ud.filterMap (fun pr =>
    match dget? pr.2 obj.id, parseDate? pr.1 with
    | some e, some d =>
      if first_monday ≤ d ∧ d ≤ last_sunday ∧ (d - first_monday) / 7 = i then some e.value
      else none
    | _, _ => none)

/-- Spec-side week value: entry count for `checkbox`, numeric-coerced sum for
`cumulative`. -/
def weekValueOf (obj : Objective) (vals : List Value) : Rat :=
  if obj.type = "checkbox" then (vals.length : Rat) else (vals.map coerceNum).sum

/-- Spec-side per-week score: full weight iff the week value reaches the target
under `binary`, the uncapped ratio award under `proportional`. -/
def weekScore (obj : Objective) (wv : Rat) : Rat :=
  if obj.scoring = "binary" then (if (obj.target_value : Rat) ≤ wv then (obj.weight : Rat) else 0)
  else (obj.weight : Rat) * wv / (obj.target_value : Rat)

/- ------------------------------------------------------------------ -/
/- Helper lemmas. -/
/- ------------------------------------------------------------------ -/

/-- Floor division by 7 agrees with Lean (euclidean) integer division. -/
theorem pyFloorDiv_seven (a : Int) : pyFloorDiv a 7 = a / 7 :=
  Int.fdiv_eq_ediv a (by norm_num)

theorem wb_first_monday (s e : Int) : (getWeeklyBoundaries s e).first_monday =
    if weekday s = 0 then s else s + (7 - weekday s) := rfl

theorem wb_last_sunday (s e : Int) : (getWeeklyBoundaries s e).last_sunday =
    if weekday e = 6 then e else e - (weekday e + 1) := rfl

theorem wb_num_complete_weeks (s e : Int) : (getWeeklyBoundaries s e).num_complete_weeks =
    if (getWeeklyBoundaries s e).last_sunday < (getWeeklyBoundaries s e).first_monday then 0
    else ((getWeeklyBoundaries s e).last_sunday - (getWeeklyBoundaries s e).first_monday + 1) / 7 := by
  simp only [getWeeklyBoundaries, pyFloorDiv_seven]

theorem dget?_dset {α : Type} (m : Dict α) (k j : String) (v : α) :
    dget? (dset m k v) j = if j = k then some v else dget? m j := by
  induction m with
  | nil =>
    simp only [dset, dget?]
    by_cases h : j = k
    · simp [h]
    · have h2 : ¬ k = j := fun hh => h hh.symm
      simp [h, h2]
  | cons p rest ih =>
    simp only [dset]
    by_cases hpk : p.1 = k
    · simp only [if_pos hpk, dget?]
      by_cases hj : j = k
      · simp [hj]
      · have h2 : ¬ k = j := fun hh => hj hh.symm
        simp [hj, h2, hpk, dget?]
    · simp only [if_neg hpk, dget?, ih]
      by_cases hpj : p.1 = j
      · have hjk : ¬ j = k := fun hh => hpk (hpj.trans hh)
        simp [hpj, hjk]
      · simp [hpj]

theorem dget?_some_mem {α : Type} (m : Dict α) (k : String) (x : α)
    (h : dget? m k = some x) : ∃ pr ∈ m, pr.2 = x := by
  induction m with
  | nil => simp [dget?] at h
  | cons p rest ih =>
    simp only [dget?] at h
    by_cases hpk : p.1 = k
    · rw [if_pos hpk] at h
      exact ⟨p, List.mem_cons_self _ _, Option.some.inj h⟩
    · rw [if_neg hpk] at h
      rcases ih h with ⟨pr, hmem, hx⟩
      exact ⟨pr, List.mem_cons_of_mem _ hmem, hx⟩

theorem mem_dset {α : Type} (m : Dict α) (k : String) (v : α) :
    ∀ pr ∈ dset m k v, pr = (k, v) ∨ pr ∈ m := by
  induction m with
  | nil => intro pr h; simp [dset] at h; exact Or.inl (by simp [h])
  | cons p rest ih =>
    intro pr h
    simp only [dset] at h
    by_cases hpk : p.1 = k
    · rw [if_pos hpk] at h
      rcases List.mem_cons.mp h with h | h
      · exact Or.inl h
      · exact Or.inr (List.mem_cons_of_mem _ h)
    · rw [if_neg hpk] at h
      rcases List.mem_cons.mp h with h | h
      · exact Or.inr (h ▸ List.mem_cons_self _ _)
      · rcases ih pr h with h | h
        · exact Or.inl h
        · exact Or.inr (List.mem_cons_of_mem _ h)

/-- Folding rows none of which carries a given item id produces a store in
which no date dict holds that id. -/
theorem getUserData_aux (id : String) :
    ∀ (rows : List Row) (acc : UserData),
      (∀ r ∈ rows, r.item_id ≠ id) →
      (∀ pr ∈ acc, dget? pr.2 id = none) →
      ∀ pr ∈ rows.foldl userDataStep acc, dget? pr.2 id = none := by
  intro rows
  induction rows with
  | nil => intro acc _ hacc; simpa using hacc
  | cons r rest ih =>
    intro acc hrows hacc
    simp only [List.foldl_cons]
    apply ih
    · intro x hx; exact hrows x (List.mem_cons_of_mem _ hx)
    · intro pr hpr
      have hrid : r.item_id ≠ id := hrows r (List.mem_cons_self _ _)
      rcases mem_dset _ _ _ pr (by simpa [userDataStep] using hpr) with h | h
      · subst h
        show dget? (dset ((dget? acc r.date).getD []) r.item_id
          ⟨r.type, convertValue r.value⟩) id = none
        rw [dget?_dset, if_neg (fun hh : id = r.item_id => hrid hh.symm)]
        rcases hd : dget? acc r.date with _ | day
        · simp [dget?]
        · rcases dget?_some_mem _ _ _ hd with ⟨pr0, hmem, hx⟩
          have hkey := hacc pr0 hmem
          rw [hx] at hkey
          simpa using hkey
      · exact hacc pr h

/-- Filtering rows of one item id away commutes with selecting another id. -/
theorem filter_comm_of_ne (rows : List Row) (id j : String) (hj : j ≠ id) :
    (rows.filter (fun r => r.item_id ≠ id)).filter (fun r => r.item_id = j) =
      rows.filter (fun r => r.item_id = j) := by
  induction rows with
  | nil => simp
  | cons r rest ih =>
    by_cases hrid : r.item_id = id
    · have hrj : ¬ r.item_id = j := fun hh => hj (hh ▸ hrid)
      rw [List.filter_cons_of_neg (by simpa using hrid),
        List.filter_cons_of_neg (by simpa using hrj), ih]
    · by_cases hrj : r.item_id = j
      · rw [List.filter_cons_of_pos (by simpa using hrid),
          List.filter_cons_of_pos (by simpa using hrj),
          List.filter_cons_of_pos (by simpa using hrj), ih]
      · rw [List.filter_cons_of_pos (by simpa using hrid),
          List.filter_cons_of_neg (by simpa using hrj),
          List.filter_cons_of_neg (by simpa using hrj), ih]

/- ------------------------------------------------------------------ -/
/- Claim theorems. -/
/- ------------------------------------------------------------------ -/

/-- C2: for start ≤ end, `_get_weekly_boundaries` returns `first_monday` equal
to the start if it is a Monday and otherwise the next Monday after it,
`last_sunday` equal to the end if it is a Sunday and otherwise the previous
Sunday before it, and `num_complete_weeks` equal to 0 when `last_sunday <
first_monday` and to `floor((last_sunday - first_monday + 1) / 7)` otherwise. -/
theorem C2_weekly_boundaries (s e : Int) (hse : s ≤ e) :
    ((weekday s = 0 → (getWeeklyBoundaries s e).first_monday = s) ∧
     (weekday s ≠ 0 → weekday (getWeeklyBoundaries s e).first_monday = 0 ∧
       s < (getWeeklyBoundaries s e).first_monday ∧
       (getWeeklyBoundaries s e).first_monday ≤ s + 6)) ∧
    ((weekday e = 6 → (getWeeklyBoundaries s e).last_sunday = e) ∧
     (weekday e ≠ 6 → weekday (getWeeklyBoundaries s e).last_sunday = 6 ∧
       (getWeeklyBoundaries s e).last_sunday < e ∧
       e - 6 ≤ (getWeeklyBoundaries s e).last_sunday)) ∧
    (((getWeeklyBoundaries s e).last_sunday < (getWeeklyBoundaries s e).first_monday →
       (getWeeklyBoundaries s e).num_complete_weeks = 0) ∧
     ((getWeeklyBoundaries s e).first_monday ≤ (getWeeklyBoundaries s e).last_sunday →
       (getWeeklyBoundaries s e).num_complete_weeks =
         ((getWeeklyBoundaries s e).last_sunday - (getWeeklyBoundaries s e).first_monday + 1) / 7)) := by
  rw [wb_num_complete_weeks, wb_first_monday, wb_last_sunday]
  simp only [weekday]
  split_ifs <;> omega

/-- Witness for C2 at 2024-01-02 (a Tuesday, ordinal 738887) through 2024-01-14
(a Sunday, ordinal 738899): the first Monday is strictly inside the range. -/
theorem C2_weekly_boundaries_witness :
    weekday (getWeeklyBoundaries 738887 738899).first_monday = 0 ∧
    (738887 : Int) < (getWeeklyBoundaries 738887 738899).first_monday ∧
    (getWeeklyBoundaries 738887 738899).first_monday ≤ 738887 + 6 :=
  (C2_weekly_boundaries 738887 738899 (by norm_num)).1.2 (by decide)

/-- C5: for positive weight and target, the aggregator path awards
`weight * week_value / target` for a week without clamping, the breakdown path
awards `weight * min(week_value / target, 1)`, and the two awards differ
exactly when the week value exceeds the target. -/
theorem C5_weekly_proportional_clamp (w t : Int) (hw : 0 < w) (ht : 0 < t) (v : Rat) :
    weeklyProportionalAwardAgg w t v = .ok ((w : Rat) * v / (t : Rat)) ∧
    weeklyProportionalAwardBreakdown w t v = .ok ((w : Rat) * min (v / (t : Rat)) 1) ∧
    (weeklyProportionalAwardAgg w t v ≠ weeklyProportionalAwardBreakdown w t v ↔ (t : Rat) < v) := by
  have htR : (0 : Rat) < (t : Rat) := by exact_mod_cast ht
  have hwR : (0 : Rat) < (w : Rat) := by exact_mod_cast hw
  have ht0 : ((t : Int) : Rat) ≠ 0 := ne_of_gt htR
  refine ⟨by simp [weeklyProportionalAwardAgg, ht0],
    by simp [weeklyProportionalAwardBreakdown, ht0], ?_⟩
  simp only [weeklyProportionalAwardAgg, weeklyProportionalAwardBreakdown, if_neg ht0,
    ne_eq, Except.ok.injEq]
  rcases le_or_lt v (t : Rat) with hle | hlt
  · have h1 : v / (t : Rat) ≤ 1 := (div_le_one htR).mpr hle
    have heq : (w : Rat) * v / (t : Rat) = (w : Rat) * min (v / (t : Rat)) 1 := by
      rw [min_eq_left h1, mul_div_assoc]
    simp [heq, not_lt.mpr hle]
  · have h1 : 1 < v / (t : Rat) := (one_lt_div htR).mpr hlt
    have hne : (w : Rat) * v / (t : Rat) ≠ (w : Rat) * min (v / (t : Rat)) 1 := by
      rw [min_eq_right (le_of_lt h1), mul_one, mul_div_assoc]
      have hgt : (w : Rat) * 1 < (w : Rat) * (v / (t : Rat)) :=
        (mul_lt_mul_left hwR).mpr h1
      rw [mul_one] at hgt
      exact ne_of_gt hgt
    simp [hne, hlt]

/-- Witness for C5 at weight 10, target 5, week value 7: the two paths differ. -/
theorem C5_weekly_proportional_clamp_witness :
    weeklyProportionalAwardAgg 10 5 7 ≠ weeklyProportionalAwardBreakdown 10 5 7 :=
  (C5_weekly_proportional_clamp 10 5 (by norm_num) (by norm_num) 7).2.2.mpr (by norm_num)

/-- C8: whenever no program is loaded or a program date fails to parse as
`YYYY-MM-DD` (including the empty string for a missing date), `compute_progress`
returns the explicit no-result signal `None` and raises no exception. -/
theorem C8_missing_program_returns_none (prog : Option Program) (ud : UserData) (today : Int)
    (h : prog = none ∨ ∃ p, prog = some p ∧
      (parseDate? p.start_date = none ∨ parseDate? p.end_date = none)) :
    computeProgress prog ud today = .ok none := by
  rcases h with h | ⟨p, rfl, h⟩
  · subst h; rfl
  · rcases h with h | h
    · simp [computeProgress, h]
    · rcases he : parseDate? p.start_date with _ | sd <;> simp [computeProgress, h, he]

/-- Witness for C8: no program loaded. -/
theorem C8_missing_program_returns_none_witness : computeProgress none [] 0 = .ok none :=
  C8_missing_program_returns_none none [] 0 (Or.inl rfl)

/-- C6: saving an entry with item type `task` and value 0 deletes every stored
row of that item id across all dates (rather than storing a zero row), leaves
the rows of every other item id unchanged, is idempotent, and a subsequent
completion check on the re-read store reports the task as not completed. -/
theorem C6_task_zero_undo (rows : List Row) (date date2 id : String) :
    saveUserDataEntry rows date id "task" (.int 0) =
      .ok (rows.filter (fun r => r.item_id ≠ id)) ∧
    (∀ r ∈ rows.filter (fun r => r.item_id ≠ id), r.item_id ≠ id) ∧
    (∀ j, j ≠ id →
      (rows.filter (fun r => r.item_id ≠ id)).filter (fun r => r.item_id = j) =
        rows.filter (fun r => r.item_id = j)) ∧
    saveUserDataEntry (rows.filter (fun r => r.item_id ≠ id)) date2 id "task" (.int 0) =
      .ok (rows.filter (fun r => r.item_id ≠ id)) ∧
    taskCompleted (getUserData (rows.filter (fun r => r.item_id ≠ id))) id = false := by
  have hmem : ∀ r ∈ rows.filter (fun r => r.item_id ≠ id), r.item_id ≠ id := by
    intro r hr
    have := (List.mem_filter.mp hr).2
    simpa using this
  refine ⟨by simp [saveUserDataEntry, pyInt?], hmem, ?_, ?_, ?_⟩
  · intro j hj
    exact filter_comm_of_ne rows id j hj
  · have hself : (rows.filter (fun r => r.item_id ≠ id)).filter (fun r => r.item_id ≠ id) =
        rows.filter (fun r => r.item_id ≠ id) := by
      apply List.filter_eq_self.mpr
      intro r hr
      simpa using hmem r hr
    simp [saveUserDataEntry, pyInt?, hself]
  · have hnone := getUserData_aux id (rows.filter (fun r => r.item_id ≠ id)) [] hmem (by simp)
    rw [taskCompleted, List.any_eq_false]
    intro pr hpr
    rw [hnone pr hpr]
    simp

/-- Concrete rows for the C6 witness: two tasks each completed once. -/
def rowsC6 : List Row :=
  [⟨"2024-01-01", "t1", "task", "1"⟩, ⟨"2024-01-02", "t2", "task", "1"⟩]

/-- Witness for C6: undoing task `t1` of `rowsC6` deletes its rows, repeating
the save changes nothing, and the task then reads as not completed. -/
theorem C6_task_zero_undo_witness :
    saveUserDataEntry rowsC6 "2024-01-03" "t1" "task" (Value.int 0) =
      .ok (rowsC6.filter (fun r => r.item_id ≠ "t1")) ∧
    saveUserDataEntry (rowsC6.filter (fun r => r.item_id ≠ "t1")) "2024-01-04" "t1" "task"
      (Value.int 0) = .ok (rowsC6.filter (fun r => r.item_id ≠ "t1")) ∧
    taskCompleted (getUserData (rowsC6.filter (fun r => r.item_id ≠ "t1"))) "t1" = false :=
  ⟨(C6_task_zero_undo rowsC6 "2024-01-03" "2024-01-04" "t1").1,
   (C6_task_zero_undo rowsC6 "2024-01-03" "2024-01-04" "t1").2.2.2.1,
   (C6_task_zero_undo rowsC6 "2024-01-03" "2024-01-04" "t1").2.2.2.2⟩

theorem pyRound1_zero : pyRound1 0 = 0 := by
  norm_num [pyRound1, pyRound]

/-- C7: whenever the objective and task loops of `compute_progress` accumulate
`(total, expected, current)` sums, the produced record carries exactly those
sums and percentages derived from them: `current_progress` is the rounded
`current_points / total_points * 100` and `expected_progress` the rounded
`expected_points / total_points * 100` when `total_points > 0`, both are 0
when `total_points = 0`, and `is_on_track` compares the unrounded percentages
computed from the accumulated expected points. -/
theorem C7_percentages (p : Program) (ud : UserData) (today sd ed : Int)
    (hs : parseDate? p.start_date = some sd) (he : parseDate? p.end_date = some ed)
    (t1 e1 c1 t2 e2 c2 : Rat)
    (hobjs : objectivesFold (some p) ud (getWeeklyBoundaries sd ed) today (ed - sd + 1)
      (if today < sd then 0 else if ed < today then ed - sd + 1 else today - sd + 1)
      p.objectives = .ok (t1, e1, c1))
    (htasks : tasksFold ud (ed - sd + 1)
      (if today < sd then 0 else if ed < today then ed - sd + 1 else today - sd + 1)
      p.tasks = .ok (t2, e2, c2)) :
    ∃ r, computeProgress (some p) ud today = .ok (some r) ∧
      r.current_points = c1 + c2 ∧
      r.total_points = t1 + t2 ∧
      (0 < r.total_points →
        r.current_progress = pyRound1 (r.current_points / r.total_points * 100) ∧
        r.expected_progress = pyRound1 ((e1 + e2) / r.total_points * 100)) ∧
      (r.total_points = 0 → r.current_progress = 0 ∧ r.expected_progress = 0) ∧
      (r.is_on_track = true ↔
        (if 0 < r.total_points then (e1 + e2) / r.total_points * 100 else 0) ≤
          (if 0 < r.total_points then r.current_points / r.total_points * 100 else 0)) := by
  refine ⟨finalizeProgress (c1 + c2) (t1 + t2) (e1 + e2)
    (if today < sd then 0 else if ed < today then ed - sd + 1 else today - sd + 1)
    (ed - sd + 1), ?_, rfl, rfl, ?_, ?_, ?_⟩
  · simp only [computeProgress, hs, he, hobjs, htasks]
  · intro hpos
    constructor
    · simp only [finalizeProgress] at hpos ⊢
      rw [if_pos hpos]
    · simp only [finalizeProgress] at hpos ⊢
      rw [if_pos hpos]
  · intro hz
    simp only [finalizeProgress] at hz ⊢
    rw [if_neg (by rw [hz]; exact lt_irrefl 0), if_neg (by rw [hz]; exact lt_irrefl 0),
      pyRound1_zero]
    exact ⟨rfl, rfl⟩
  · simp only [finalizeProgress]
    simp only [decide_eq_true_eq]

/-- Concrete program for the C7 and C9 witnesses: one task of weight 100 over
the 49 days 2024-01-01 .. 2024-02-18, completed on day one. -/
def progC7 : Program := ⟨"P", "2024-01-01", "2024-02-18", [], [⟨"task_1", "Do", 100⟩]⟩

def udC7 : UserData := [("2024-01-01", [("task_1", ⟨"task", .int 1⟩)])]

/-- Witness for C7 at the concrete one-task program: the accumulated sums are
(0,0,0) over the empty objective list and (100, 100/49, 100) over the task. -/
theorem C7_percentages_witness :
    ∃ r, computeProgress (some progC7) udC7 738886 = .ok (some r) ∧
      r.current_points = 0 + 100 ∧
      r.total_points = 0 + 100 ∧
      (0 < r.total_points →
        r.current_progress = pyRound1 (r.current_points / r.total_points * 100) ∧
        r.expected_progress = pyRound1 ((0 + 100 / 49) / r.total_points * 100)) ∧
      (r.total_points = 0 → r.current_progress = 0 ∧ r.expected_progress = 0) ∧
      (r.is_on_track = true ↔
        (if 0 < r.total_points then (0 + 100 / 49) / r.total_points * 100 else 0) ≤
          (if 0 < r.total_points then r.current_points / r.total_points * 100 else 0)) :=
  C7_percentages progC7 udC7 738886 738886 738934 (by decide) (by decide)
    0 0 0 100 (100 / 49) 100 rfl
    (by
      have h4 : taskCompleted udC7 "task_1" = true := by decide
      norm_num [tasksFold, progC7, h4])

/-- The spec's concrete decreasing-goal objective: `latest` `proportional`,
start 80, target 75, weight 50, importance `indispensable`. -/
def objC3 : Objective :=
  ⟨"kg", "Weigh", "latest", "program", "proportional", 80, 75, "kg", 50, "indispensable"⟩

def progC3 : Program := ⟨"P", "2024-01-01", "2024-01-30", [objC3], []⟩

def udC3 : UserData := [("2024-01-21", [("kg", ⟨"numeric", .int 76⟩)])]

theorem progObjVal_C3 : programObjectiveValue? objC3 udC3 = some 76 := by
  norm_num [programObjectiveValue?, programObjectiveData, objC3, udC3, dget?, coerceNum,
    truthy, pyFloat?]
  rw [if_neg (by decide : ¬ ("latest" : String) = "checkbox"),
    if_neg (by decide : ¬ ("latest" : String) = "cumulative")]

/-- The program calculator's output on the spec's concrete scenario: 120
points, not the 600 the spec computes. -/
theorem evalC3 : computeProgramObjectivePoints progC3 objC3 udC3 = .ok 120 := by
  have h1 : parseDate? progC3.start_date = some 738886 := by decide
  have h2 : parseDate? progC3.end_date = some 738915 := by decide
  simp only [computeProgramObjectivePoints, h1, h2, progObjVal_C3]
  norm_num [objC3, importanceMultiplier]
  decide

/-- C3 counterexample: at the spec's own scenario (start 80, target 75, weight
50, indispensable, latest value 76) the code yields 120 points, and 120 ≠ 600,
so the claim's concrete figure of 600 is false. -/
theorem C3_program_proportional_counterexample :
    computeProgramObjectivePoints progC3 objC3 udC3 = .ok 120 ∧ (120 : Rat) ≠ 600 :=
  ⟨evalC3, by norm_num⟩

/-- C3 (amended): the program proportional calculator computes the claimed
unclamped fraction formulas times the importance multiplier, but the concrete
scenario yields 120 points (50 × ((80−76)/(80−75)) × 3), not 600. -/
theorem C3_program_proportional :
    (∀ (p : Program) (obj : Objective) (ud : UserData) (v : Rat),
      (parseDate? p.start_date).isSome → (parseDate? p.end_date).isSome →
      obj.scoring = "proportional" →
      programObjectiveValue? obj ud = some v →
      (obj.target_value < obj.start_value →
        computeProgramObjectivePoints p obj ud =
          .ok ((obj.weight : Rat) *
            (((obj.start_value : Rat) - v) /
              ((obj.start_value : Rat) - (obj.target_value : Rat))) *
            (importanceMultiplier obj.importance : Int))) ∧
      (obj.start_value ≤ obj.target_value → obj.target_value ≠ 0 →
        computeProgramObjectivePoints p obj ud =
          .ok ((obj.weight : Rat) * v / (obj.target_value : Rat) *
            (importanceMultiplier obj.importance : Int)))) ∧
    computeProgramObjectivePoints progC3 objC3 udC3 = .ok 120 := by
  constructor
  · intro p obj ud v hs he hsc hval
    obtain ⟨sd, hsd⟩ := Option.isSome_iff_exists.mp hs
    obtain ⟨ed, hed⟩ := Option.isSome_iff_exists.mp he
    constructor
    · intro hlt
      simp [computeProgramObjectivePoints, hsd, hed, hval, hsc, hlt]
    · intro hle hne
      simp [computeProgramObjectivePoints, hsd, hed, hval, hsc, not_lt.mpr hle,
        Int.cast_eq_zero, hne]
  · exact evalC3

/-- Witness for C3 at the concrete decreasing-goal scenario. -/
theorem C3_program_proportional_witness :
    computeProgramObjectivePoints progC3 objC3 udC3 =
      .ok ((objC3.weight : Rat) *
        (((objC3.start_value : Rat) - 76) /
          ((objC3.start_value : Rat) - (objC3.target_value : Rat))) *
        (importanceMultiplier objC3.importance : Int)) :=
  ((C3_program_proportional).1 progC3 objC3 udC3 76 (by decide) (by decide) rfl
    progObjVal_C3).1 (by decide)

/-- A daily objective of unsupported type `cumulative` for C4. -/
def objC4 : Objective := ⟨"d", "Daily", "cumulative", "daily", "binary", 0, 1, "", 1, "bien"⟩

def progC4 : Program := ⟨"P", "2024-01-01", "2024-01-03", [objC4], []⟩

/-- The aggregator on a program whose only objective is a daily objective of
unsupported type: earned 0, but total 3 (weight × days), not 0. -/
theorem evalC4 :
    (computeProgress (some progC4) [] 738886).map
      (Option.map (fun r => (r.total_points, r.current_points))) = .ok (some (3, 0)) := by
  have h1 : parseDate? "2024-01-01" = some 738886 := by decide
  have h2 : parseDate? "2024-01-03" = some 738888 := by decide
  simp only [computeProgress, progC4, h1, h2]
  norm_num +decide [objectivesFold, tasksFold, objectiveTotalExpected, computeObjectivePoints,
    computeDailyObjectivePoints, dailyLoop, objC4, importanceMultiplier, finalizeProgress,
    Except.map]

/-- A daily objective of non-checkbox type never accumulates earned points. -/
theorem dailyLoop_nonCheckbox (obj : Objective) (h : obj.type ≠ "checkbox") :
    ∀ ud : UserData, dailyLoop obj ud = some 0 ∨ dailyLoop obj ud = none := by
  intro ud
  induction ud with
  | nil => exact Or.inl rfl
  | cons pr rest ih =>
    obtain ⟨d, day⟩ := pr
    rcases hd : dget? day obj.id with _ | e
    · simpa [dailyLoop, hd] using ih
    · by_cases ht : truthy e.value
      · simp [dailyLoop, hd, ht, h]
      · simpa [dailyLoop, hd, ht] using ih

/-- C4 counterexample: a daily objective of (unsupported) type `cumulative`,
weight 1, over a 3-day program contributes its full earnable 3 to
`total_points` (only its earned points degrade to 0), so the claim that an
unsupported type contributes 0 to the total is false. -/
theorem C4_unsupported_combination_counterexample :
    (computeProgress (some progC4) [] 738886).map
      (Option.map (fun r => (r.total_points, r.current_points))) = .ok (some (3, 0)) ∧
    (3 : Rat) ≠ 0 :=
  ⟨evalC4, by norm_num⟩

/-- A weekly objective of weight 5 and importance `indispensable` over the two
complete weeks 2024-01-01 .. 2024-01-14, for C10. -/
def objC10 : Objective := ⟨"w", "Weekly", "checkbox", "weekly", "binary", 0, 3, "", 5, "indispensable"⟩

def progC10 : Program := ⟨"P", "2024-01-01", "2024-01-14", [objC10], []⟩

/-- The breakdown totals for `progC10`: `5 * (14 // 7) = 10`, with no
importance multiplier. -/
theorem evalC10break : breakdownTotalPoints (some progC10) = 10 := by
  have h1 : parseDate? "2024-01-01" = some 738886 := by decide
  have h2 : parseDate? "2024-01-14" = some 738899 := by decide
  simp only [breakdownTotalPoints, progC10]
  norm_num +decide [h1, h2, breakdownObjectiveTotalPoints, objC10, pyFloorDiv_seven]

/-- The aggregator total for `progC10`: `5 * 2 * 3 = 30`. -/
theorem evalC10agg :
    (computeProgress (some progC10) [] 738886).map (Option.map ProgressResult.total_points) =
      .ok (some 30) := by
  have h1 : parseDate? "2024-01-01" = some 738886 := by decide
  have h2 : parseDate? "2024-01-14" = some 738899 := by decide
  have hw : getWeeklyBoundaries 738886 738899 = ⟨738886, 738899, 2⟩ := by decide
  simp only [computeProgress, progC10, h1, h2, hw]
  norm_num +decide [objectivesFold, tasksFold, objectiveTotalExpected, computeObjectivePoints,
    computeWeeklyObjectivePoints, collectWeekValues, weeklyLoop, objC10, importanceMultiplier,
    finalizeProgress, Except.map, pyFloorDiv_seven, h1, h2, hw, List.range_succ]

/-- C10: the detailed-breakdown earnable formulas are `weight * (total_days // 7)`
for weekly objectives (no importance multiplier, no Monday alignment) and
`total_days / 2` for program objectives (no weight, no multiplier), and on a
concrete program the breakdown total (10) differs from the aggregator total (30). -/
theorem C10_breakdown_totals :
    (∀ (td : Int) (obj : Objective), obj.frequency = "weekly" →
      breakdownObjectiveTotalPoints td obj = ((obj.weight * (td / 7) : Int) : Rat)) ∧
    (∀ (td : Int) (obj : Objective), obj.frequency = "program" →
      breakdownObjectiveTotalPoints td obj = (td : Rat) / 2) ∧
    (breakdownTotalPoints (some progC10) = 10 ∧
     (computeProgress (some progC10) [] 738886).map (Option.map ProgressResult.total_points) =
       .ok (some 30) ∧
     (10 : Rat) ≠ 30) := by
  refine ⟨?_, ?_, evalC10break, evalC10agg, by norm_num⟩
  · intro td obj h
    simp +decide [breakdownObjectiveTotalPoints, h, pyFloorDiv_seven]
  · intro td obj h
    simp +decide [breakdownObjectiveTotalPoints, h]

/-- Witness for C10 on the concrete weekly objective and 14-day span. -/
theorem C10_breakdown_totals_witness :
    breakdownObjectiveTotalPoints 14 objC10 = ((objC10.weight * ((14 : Int) / 7) : Int) : Rat) :=
  (C10_breakdown_totals).1 14 objC10 rfl

/-- The grouping loop collects exactly the in-window entries of the objective,
tagged with their week index, when every relevant date key parses. -/
theorem collectWeekValues_eq (obj : Objective) (fm ls : Int) :
    ∀ ud : UserData,
      (∀ pr ∈ ud, (dget? pr.2 obj.id).isSome → (parseDate? pr.1).isSome) →
      collectWeekValues obj fm ls ud = .ok (ud.filterMap (fun pr =>
        match dget? pr.2 obj.id, parseDate? pr.1 with
        | some e, some d => if fm ≤ d ∧ d ≤ ls then some ((d - fm) / 7, e.value) else none
        | _, _ => none)) := by
  intro ud
  induction ud with
  | nil => intro _; rfl
  | cons pr rest ih =>
    intro hud
    obtain ⟨ds, day⟩ := pr
    have hrest := fun x hx => hud x (List.mem_cons_of_mem _ hx)
    simp only [collectWeekValues, List.filterMap_cons]
    rcases he : dget? day obj.id with _ | e
    · simpa [he] using ih hrest
    · have hparse : (parseDate? ds).isSome :=
        hud (ds, day) (List.mem_cons_self _ _) (by simp [he])
      obtain ⟨d, hd⟩ := Option.isSome_iff_exists.mp hparse
      rw [hd]
      by_cases hin : fm ≤ d ∧ d ≤ ls
      · simp [hin, ih hrest, pyFloorDiv_seven]
      · simp [hin, ih hrest]

/-- The week-scoring loop is the sum of the spec-side per-week scores when the
type is supported and a proportional target is nonzero. -/
theorem weeklyLoop_eq (obj : Objective)
    (htype : obj.type = "checkbox" ∨ obj.type = "cumulative")
    (hscore : obj.scoring = "binary" ∨ (obj.scoring = "proportional" ∧ obj.target_value ≠ 0)) :
    ∀ weeks : List (List Value),
      weeklyLoop obj weeks =
        .ok (some ((weeks.map (fun wd => weekScore obj (weekValueOf obj wd))).sum)) := by
  intro weeks
  induction weeks with
  | nil => simp [weeklyLoop]
  | cons wd rest ih =>
    simp only [weeklyLoop, List.map_cons, List.sum_cons]
    have hwv : (if obj.type = "checkbox" then some ((wd.length : Rat))
        else if obj.type = "cumulative" then some ((wd.map coerceNum).sum) else none) =
        some (weekValueOf obj wd) := by
      rcases htype with h | h <;> simp +decide [h, weekValueOf]
    rw [hwv]
    rcases hscore with h | ⟨h, hne⟩
    · simp [h, ih, weekScore]
    · have hnb : ¬ obj.scoring = "binary" := by rw [h]; decide
      have hcast : ¬ ((obj.target_value : Rat) = 0) := by exact_mod_cast hne
      simp [h, hnb, hcast, ih, weekScore]

/-- Selecting one week index out of the collected pairs yields the spec-side
`weekEntries` of that week. -/
theorem filter_collect (obj : Objective) (fm ls : Int) (i : Int) :
    ∀ ud : UserData,
      ((ud.filterMap (fun pr =>
        match dget? pr.2 obj.id, parseDate? pr.1 with
        | some e, some d => if fm ≤ d ∧ d ≤ ls then some ((d - fm) / 7, e.value) else none
        | _, _ => none)).filter (fun pr => pr.1 = i)).map Prod.snd =
      weekEntries obj fm ls i ud := by
  intro ud
  induction ud with
  | nil => rfl
  | cons pr rest ih =>
    obtain ⟨ds, day⟩ := pr
    simp only [weekEntries, List.filterMap_cons] at ih ⊢
    rcases he : dget? day obj.id with _ | e
    · simpa [he] using ih
    · rcases hd : parseDate? ds with _ | d
      · simpa [he, hd] using ih
      · by_cases hin : fm ≤ d ∧ d ≤ ls
        · by_cases hidx : (d - fm) / 7 = i
          · simp [he, hd, hin, hidx, ih]
          · simp [he, hd, hin, hidx, ih]
        · have hin3 : ¬ (fm ≤ d ∧ d ≤ ls ∧ (d - fm) / 7 = i) := fun hh => hin ⟨hh.1, hh.2.1⟩
          simp [he, hd, hin, hin3, ih]

/-- C1 (amended): on a program with parseable dates and well-formed entry-date
keys, a weekly objective of supported type and scoring earns exactly the sum
over the complete weeks of the per-week score of its week value — counting,
for `checkbox`, every in-window entry whether truthy or not — times the
importance multiplier, and its maximum earnable points are
`weight × num_complete_weeks × multiplier`. -/
theorem C1_weekly_calculator (p : Program) (obj : Objective) (ud : UserData) (sd ed : Int)
    (hs : parseDate? p.start_date = some sd) (he : parseDate? p.end_date = some ed)
    (hud : ∀ pr ∈ ud, (dget? pr.2 obj.id).isSome → (parseDate? pr.1).isSome)
    (htype : obj.type = "checkbox" ∨ obj.type = "cumulative")
    (hscore : obj.scoring = "binary" ∨ (obj.scoring = "proportional" ∧ obj.target_value ≠ 0)) :
    computeWeeklyObjectivePoints (some p) obj ud =
      .ok ((((List.range (getWeeklyBoundaries sd ed).num_complete_weeks.toNat).map
        (fun i => weekScore obj (weekValueOf obj
          (weekEntries obj (getWeeklyBoundaries sd ed).first_monday
            (getWeeklyBoundaries sd ed).last_sunday (i : Int) ud)))).sum) *
        (importanceMultiplier obj.importance : Int)) ∧
    (obj.frequency = "weekly" →
      getObjectiveMaxPoints (some p) obj =
        obj.weight * (getWeeklyBoundaries sd ed).num_complete_weeks *
          importanceMultiplier obj.importance) := by
  have hs0 : ¬ p.start_date = "" := by
    intro hh
    rw [hh, (by decide : parseDate? "" = none)] at hs
    simp at hs
  have he0 : ¬ p.end_date = "" := by
    intro hh
    rw [hh, (by decide : parseDate? "" = none)] at he
    simp at he
  constructor
  · simp only [computeWeeklyObjectivePoints, if_neg hs0, if_neg he0, hs, he]
    by_cases hnw : (getWeeklyBoundaries sd ed).num_complete_weeks = 0
    · simp [hnw]
    · rw [if_neg hnw]
      rw [collectWeekValues_eq obj _ _ ud hud]
      simp only [weeklyLoop_eq obj htype hscore]
      simp only [filter_collect]
      simp only [List.map_map]
      rfl
  · intro hfreq
    simp only [getObjectiveMaxPoints, if_neg hs0, if_neg he0, hs, he]
    simp +decide [hfreq]

/-- A weekly checkbox objective with a single stored (but falsy) entry. -/
def objC1x : Objective := ⟨"w", "W", "checkbox", "weekly", "binary", 0, 1, "", 1, "bien"⟩

def progC1x : Program := ⟨"P", "2024-01-01", "2024-01-07", [objC1x], []⟩

def udC1x : UserData := [("2024-01-03", [("w", ⟨"checkbox", .int 0⟩)])]

/-- The weekly calculator on `udC1x`: the falsy entry still counts, so the
binary target of 1 is met and a point is awarded. -/
theorem evalC1x : computeWeeklyObjectivePoints (some progC1x) objC1x udC1x = .ok 1 := by
  have h1 : parseDate? "2024-01-01" = some 738886 := by decide
  have h2 : parseDate? "2024-01-07" = some 738892 := by decide
  have h3 : parseDate? "2024-01-03" = some 738888 := by decide
  have hw : getWeeklyBoundaries 738886 738892 = ⟨738886, 738892, 1⟩ := by decide
  simp only [computeWeeklyObjectivePoints, progC1x, h1, h2, hw]
  norm_num +decide [collectWeekValues, weeklyLoop, objC1x, udC1x, dget?, h3,
    pyFloorDiv_seven, List.range_succ, importanceMultiplier]

/-- C1 counterexample: a weekly checkbox objective (weight 1, binary target 1)
whose only in-window entry has the falsy value 0 is awarded a full point by
the code, while the claim's truthy-entry count for that week is 0 (so the
claimed week value would meet no target). -/
theorem C1_weekly_calculator_counterexample :
    computeWeeklyObjectivePoints (some progC1x) objC1x udC1x = .ok 1 ∧
    ((weekEntries objC1x 738886 738892 0 udC1x).filter (fun v => truthy v)).length = 0 :=
  ⟨evalC1x, by decide⟩

/-- Witness for C1 at the concrete one-week program. -/
theorem C1_weekly_calculator_witness :
    computeWeeklyObjectivePoints (some progC1x) objC1x udC1x =
      .ok ((((List.range (getWeeklyBoundaries 738886 738892).num_complete_weeks.toNat).map
        (fun i => weekScore objC1x (weekValueOf objC1x
          (weekEntries objC1x (getWeeklyBoundaries 738886 738892).first_monday
            (getWeeklyBoundaries 738886 738892).last_sunday (i : Int) udC1x)))).sum) *
        (importanceMultiplier objC1x.importance : Int)) :=
  (C1_weekly_calculator progC1x objC1x udC1x 738886 738892 (by decide) (by decide)
    (by decide) (Or.inl rfl) (Or.inl rfl)).1

/-- A weekly proportional objective with target 0: dividing by its target
raises `ZeroDivisionError` in every week, even with no entries. -/
def objC9 : Objective := ⟨"z", "Z", "cumulative", "weekly", "proportional", 0, 0, "", 10, "bien"⟩

def progC9 : Program := ⟨"P", "2024-01-01", "2024-01-07", [objC9], []⟩

/-- The aggregator raises (propagates `ZeroDivisionError`) on `progC9`. -/
theorem evalC9 : computeProgress (some progC9) [] 738886 = .error .zeroDiv := by
  have h1 : parseDate? "2024-01-01" = some 738886 := by decide
  have h2 : parseDate? "2024-01-07" = some 738892 := by decide
  have hw : getWeeklyBoundaries 738886 738892 = ⟨738886, 738892, 1⟩ := by decide
  simp only [computeProgress, progC9, h1, h2, hw]
  norm_num +decide [objectivesFold, objectiveTotalExpected, computeObjectivePoints,
    computeWeeklyObjectivePoints, collectWeekValues, weeklyLoop, objC9, h1, h2, hw,
    List.range_succ]

/-- C9 counterexample: the claim says the progress computation never raises,
for every program definition including a zero `target_value` on a proportional
objective; on `progC9` (weekly proportional, target 0) it raises
`ZeroDivisionError` instead of degrading to a zero contribution. -/
theorem C9_never_raises_counterexample :
    computeProgress (some progC9) [] 738886 = .error .zeroDiv :=
  evalC9

theorem weeklyLoop_ne_error (obj : Objective)
    (h : obj.scoring = "proportional" → obj.target_value ≠ 0) :
    ∀ (weeks : List (List Value)) (e : PyErr), weeklyLoop obj weeks ≠ .error e := by
  intro weeks
  induction weeks with
  | nil => intro e h2; exact Except.noConfusion h2
  | cons wd rest ih =>
    intro e
    rcases hrest : weeklyLoop obj rest with er | r
    · exact absurd hrest (ih er)
    · by_cases ht1 : obj.type = "checkbox" ∨ obj.type = "cumulative"
      · by_cases hs1 : obj.scoring = "binary"
        · rcases ht1 with ht | ht <;> rcases r with _ | v <;>
            simp +decide [weeklyLoop, ht, hs1, hrest]
        · by_cases hs2 : obj.scoring = "proportional"
          · have hcast : ¬ ((obj.target_value : Rat) = 0) := by
              exact_mod_cast h hs2
            rcases ht1 with ht | ht <;> rcases r with _ | v <;>
              simp +decide [weeklyLoop, ht, hs1, hs2, hcast, hrest]
          · rcases ht1 with ht | ht <;>
              simp +decide [weeklyLoop, ht, hs1, hs2]
      · push_neg at ht1
        simp +decide [weeklyLoop, ht1.1, ht1.2]

theorem computeWeekly_ne_error (prog : Option Program) (obj : Objective) (ud : UserData)
    (hud : ∀ pr ∈ ud, (parseDate? pr.1).isSome)
    (h : obj.scoring = "proportional" → obj.target_value ≠ 0) :
    ∀ e, computeWeeklyObjectivePoints prog obj ud ≠ .error e := by
  intro e
  cases prog with
  | none => simp [computeWeeklyObjectivePoints]
  | some p =>
    by_cases hs0 : p.start_date = ""
    · simp [computeWeeklyObjectivePoints, hs0]
    · by_cases he0 : p.end_date = ""
      · simp [computeWeeklyObjectivePoints, hs0, he0]
      · rcases hsp : parseDate? p.start_date with _ | sd
        · simp [computeWeeklyObjectivePoints, hs0, he0, hsp]
        · rcases hep : parseDate? p.end_date with _ | ed
          · simp [computeWeeklyObjectivePoints, hs0, he0, hsp, hep]
          · simp only [computeWeeklyObjectivePoints, if_neg hs0, if_neg he0, hsp, hep]
            by_cases hnw : (getWeeklyBoundaries sd ed).num_complete_weeks = 0
            · simp [hnw]
            · rw [if_neg hnw]
              rcases hc : collectWeekValues obj (getWeeklyBoundaries sd ed).first_monday
                  (getWeeklyBoundaries sd ed).last_sunday ud with er | pairs
              · rw [collectWeekValues_eq obj _ _ ud (fun pr hpr _ => hud pr hpr)] at hc
                simp at hc
              · simp only [hc]
                split
                · next er heq => exact absurd heq (weeklyLoop_ne_error obj h _ er)
                · simp
                · simp

theorem computeProgram_ne_error (p : Program) (obj : Objective) (ud : UserData)
    (hs : (parseDate? p.start_date).isSome) (he : (parseDate? p.end_date).isSome)
    (h : obj.scoring = "proportional" → obj.target_value ≠ 0) :
    ∀ e, computeProgramObjectivePoints p obj ud ≠ .error e := by
  intro e
  obtain ⟨sd, hsd⟩ := Option.isSome_iff_exists.mp hs
  obtain ⟨ed, hed⟩ := Option.isSome_iff_exists.mp he
  simp only [computeProgramObjectivePoints, hsd, hed]
  rcases hv : programObjectiveValue? obj ud with _ | v
  · simp
  · by_cases hs1 : obj.scoring = "binary"
    · simp [hs1]
    · by_cases hs2 : obj.scoring = "proportional"
      · have hcast : ¬ ((obj.target_value : Rat) = 0) := by exact_mod_cast h hs2
        by_cases hlt : obj.target_value < obj.start_value <;>
          simp [hs1, hs2, hlt, hcast]
      · simp [hs1, hs2]

theorem objectiveTotalExpected_ne_error (wi : WeeklyInfo) (today td el : Int)
    (obj : Objective) (htd : td ≠ 0) :
    ∀ e, objectiveTotalExpected wi today td el obj ≠ .error e := by
  intro e
  have hcast : ¬ ((td : Rat) = 0) := by exact_mod_cast htd
  simp only [objectiveTotalExpected]
  split_ifs <;> simp_all

theorem computeObjectivePoints_ne_error (p : Program) (obj : Objective) (ud : UserData)
    (hud : ∀ pr ∈ ud, (parseDate? pr.1).isSome)
    (hs : (parseDate? p.start_date).isSome) (he : (parseDate? p.end_date).isSome)
    (h : obj.scoring = "proportional" → obj.target_value ≠ 0) :
    ∀ e, computeObjectivePoints (some p) obj ud ≠ .error e := by
  intro e
  by_cases h1 : obj.frequency = "daily"
  · simp [computeObjectivePoints, h1]
  · by_cases h2 : obj.frequency = "weekly"
    · simpa [computeObjectivePoints, h1, h2] using
        computeWeekly_ne_error (some p) obj ud hud h e
    · by_cases h3 : obj.frequency = "program"
      · simpa [computeObjectivePoints, h1, h2, h3] using
          computeProgram_ne_error p obj ud hs he h e
      · simp [computeObjectivePoints, h1, h2, h3]

theorem objectivesFold_ne_error (p : Program) (ud : UserData) (wi : WeeklyInfo)
    (today td el : Int)
    (hud : ∀ pr ∈ ud, (parseDate? pr.1).isSome)
    (hs : (parseDate? p.start_date).isSome) (he : (parseDate? p.end_date).isSome)
    (htd : td ≠ 0) :
    ∀ objs : List Objective,
      (∀ obj ∈ objs, obj.scoring = "proportional" → obj.target_value ≠ 0) →
      ∀ e, objectivesFold (some p) ud wi today td el objs ≠ .error e := by
  intro objs
  induction objs with
  | nil => intro _ e; simp [objectivesFold]
  | cons obj rest ih =>
    intro hobjs e
    simp only [objectivesFold]
    split
    · next er heq =>
      exact absurd heq (objectiveTotalExpected_ne_error wi today td el obj htd er)
    · next t ex heq =>
      split
      · next er heq2 =>
        exact absurd heq2 (computeObjectivePoints_ne_error p obj ud hud hs he
          (hobjs obj (List.mem_cons_self _ _)) er)
      · next c heq2 =>
        split
        · next er heq3 =>
          exact absurd heq3
            (ih (fun o ho => hobjs o (List.mem_cons_of_mem _ ho)) er)
        · next ts exs cs heq3 => simp

theorem tasksFold_ne_error (ud : UserData) (td el : Int) (htd : td ≠ 0) :
    ∀ (tasks : List Task) (e : PyErr), tasksFold ud td el tasks ≠ .error e := by
  intro tasks
  have hcast : ¬ ((td : Rat) = 0) := by exact_mod_cast htd
  induction tasks with
  | nil => intro e; simp [tasksFold]
  | cons t rest ih =>
    intro e
    simp only [tasksFold, if_neg hcast]
    split
    · next er heq => exact absurd heq (ih er)
    · next ts exs cs heq => simp

/-- C9 (amended): the progress computation never raises provided every
proportional objective has a nonzero `target_value`, the program spans a
nonzero number of days, and every stored entry date parses; outside those
conditions a `ZeroDivisionError` propagates (see the counterexample). -/
theorem C9_never_raises (prog : Option Program) (ud : UserData) (today : Int)
    (hud : ∀ pr ∈ ud, (parseDate? pr.1).isSome)
    (hden : ∀ p, prog = some p →
      ∀ obj ∈ p.objectives, obj.scoring = "proportional" → obj.target_value ≠ 0)
    (hdays : ∀ p sd ed, prog = some p → parseDate? p.start_date = some sd →
      parseDate? p.end_date = some ed → ed - sd + 1 ≠ 0) :
    ∃ res, computeProgress prog ud today = .ok res := by
  cases prog with
  | none => exact ⟨none, rfl⟩
  | some p =>
    rcases hsp : parseDate? p.start_date with _ | sd
    · exact ⟨none, by simp [computeProgress, hsp]⟩
    · rcases hep : parseDate? p.end_date with _ | ed
      · exact ⟨none, by simp [computeProgress, hsp, hep]⟩
      · have htd : ed - sd + 1 ≠ 0 := hdays p sd ed rfl hsp hep
        simp only [computeProgress, hsp, hep]
        split
        · next er heq =>
          exact absurd heq (objectivesFold_ne_error p ud _ today _ _ hud
            (Option.isSome_iff_exists.mpr ⟨sd, hsp⟩)
            (Option.isSome_iff_exists.mpr ⟨ed, hep⟩) htd p.objectives (hden p rfl) er)
        · next t1 e1 c1 heq =>
          split
          · next er heq2 =>
            exact absurd heq2 (tasksFold_ne_error ud _ _ htd p.tasks er)
          · next t2 e2 c2 heq2 => exact ⟨_, rfl⟩

/-- Witness for C9 on the one-task program with valid dates. -/
theorem C9_never_raises_witness :
    ∃ res, computeProgress (some progC7) [] 738886 = .ok res :=
  C9_never_raises (some progC7) [] 738886 (by simp)
    (by
      intro p hp obj ho
      obtain rfl : progC7 = p := Option.some.inj hp
      simp [progC7] at ho)
    (by
      intro p sd ed hp hsd hed
      obtain rfl : progC7 = p := Option.some.inj hp
      have h1 : parseDate? progC7.start_date = some 738886 := by decide
      have h2 : parseDate? progC7.end_date = some 738934 := by decide
      rw [h1] at hsd
      rw [h2] at hed
      obtain rfl := Option.some.inj hsd
      obtain rfl := Option.some.inj hed
      norm_num)

/-- A weekly objective of unsupported type or scoring scores `ok none` (the
early `return 0`) for any nonempty week list, `some 0` for the empty one. -/
theorem weeklyLoop_unsupported (obj : Objective)
    (h : (obj.type ≠ "checkbox" ∧ obj.type ≠ "cumulative") ∨
      (obj.scoring ≠ "binary" ∧ obj.scoring ≠ "proportional")) :
    ∀ weeks : List (List Value),
      weeklyLoop obj weeks = .ok none ∨ weeklyLoop obj weeks = .ok (some 0) := by
  intro weeks
  cases weeks with
  | nil => exact Or.inr rfl
  | cons wd rest =>
    left
    rcases h with ⟨h1, h2⟩ | ⟨h1, h2⟩
    · simp [weeklyLoop, h1, h2]
    · by_cases ht : obj.type = "checkbox"
      · simp [weeklyLoop, ht, h1, h2]
      · by_cases ht2 : obj.type = "cumulative" <;> simp [weeklyLoop, ht, ht2, h1, h2]

theorem match_ok_zero (x : Except PyErr (Option Rat)) (m : Rat)
    (hx : x = .ok none ∨ x = .ok (some 0)) :
    (match x with
     | .error e => (.error e : Except PyErr Rat)
     | .ok none => .ok 0
     | .ok (some tp) => .ok (tp * m)) = .ok 0 := by
  rcases hx with h | h <;> subst h <;> simp

/-- The weekly calculator earns 0 for an objective of unsupported type or
scoring, under the store's well-formed-date contract. -/
theorem computeWeekly_unsupported (prog : Option Program) (obj : Objective) (ud : UserData)
    (hud : ∀ pr ∈ ud, (dget? pr.2 obj.id).isSome → (parseDate? pr.1).isSome)
    (h : (obj.type ≠ "checkbox" ∧ obj.type ≠ "cumulative") ∨
      (obj.scoring ≠ "binary" ∧ obj.scoring ≠ "proportional")) :
    computeWeeklyObjectivePoints prog obj ud = .ok 0 := by
  cases prog with
  | none => rfl
  | some p =>
    by_cases hs0 : p.start_date = ""
    · simp [computeWeeklyObjectivePoints, hs0]
    · by_cases he0 : p.end_date = ""
      · simp [computeWeeklyObjectivePoints, hs0, he0]
      · rcases hsp : parseDate? p.start_date with _ | sd
        · simp [computeWeeklyObjectivePoints, hs0, he0, hsp]
        · rcases hep : parseDate? p.end_date with _ | ed
          · simp [computeWeeklyObjectivePoints, hs0, he0, hsp, hep]
          · simp only [computeWeeklyObjectivePoints, if_neg hs0, if_neg he0, hsp, hep]
            by_cases hnw : (getWeeklyBoundaries sd ed).num_complete_weeks = 0
            · simp [hnw]
            · rw [if_neg hnw, collectWeekValues_eq obj _ _ ud hud]
              exact match_ok_zero _ _ (weeklyLoop_unsupported obj h _)

/-- The program calculator earns 0 for an objective of unsupported type or
scoring, given parseable program dates. -/
theorem computeProgram_unsupported (p : Program) (obj : Objective) (ud : UserData)
    (hs : (parseDate? p.start_date).isSome) (he : (parseDate? p.end_date).isSome)
    (h : (obj.type ≠ "checkbox" ∧ obj.type ≠ "cumulative" ∧ obj.type ≠ "latest") ∨
      (obj.scoring ≠ "binary" ∧ obj.scoring ≠ "proportional")) :
    computeProgramObjectivePoints p obj ud = .ok 0 := by
  obtain ⟨sd, hsd⟩ := Option.isSome_iff_exists.mp hs
  obtain ⟨ed, hed⟩ := Option.isSome_iff_exists.mp he
  simp only [computeProgramObjectivePoints, hsd, hed]
  rcases h with ⟨h1, h2, h3⟩ | ⟨h1, h2⟩
  · have hv : programObjectiveValue? obj ud = none := by
      simp [programObjectiveValue?, h1, h2, h3]
    simp [hv]
  · rcases hv : programObjectiveValue? obj ud with _ | v <;> simp [hv, h1, h2]

/-- C4 (amended): an objective of unknown frequency contributes nothing at all
to the aggregation (removing it from the objective list leaves the fold
unchanged); an objective of recognized frequency but unsupported type or
scoring earns 0 while its full earnable is still added to the total — weight
× total_days × multiplier for daily, weight × num_complete_weeks × multiplier
for weekly, weight × multiplier for program frequency; other objectives are
processed unaffected. -/
theorem C4_unsupported_combination :
    (∀ (prog : Option Program) (ud : UserData) (wi : WeeklyInfo) (today td el : Int)
        (l1 l2 : List Objective) (obj : Objective),
      obj.frequency ≠ "daily" → obj.frequency ≠ "weekly" → obj.frequency ≠ "program" →
      objectivesFold prog ud wi today td el (l1 ++ obj :: l2) =
        objectivesFold prog ud wi today td el (l1 ++ l2)) ∧
    (∀ (prog : Option Program) (ud : UserData) (wi : WeeklyInfo) (today td el : Int)
        (obj : Objective),
      obj.frequency = "daily" → obj.type ≠ "checkbox" →
      computeObjectivePoints prog obj ud = .ok 0 ∧
      objectiveTotalExpected wi today td el obj =
        .ok (((obj.weight * td * importanceMultiplier obj.importance : Int) : Rat),
          ((obj.weight * el * importanceMultiplier obj.importance : Int) : Rat))) ∧
    (∀ (prog : Option Program) (ud : UserData) (wi : WeeklyInfo) (today td el : Int)
        (obj : Objective),
      (∀ pr ∈ ud, (dget? pr.2 obj.id).isSome → (parseDate? pr.1).isSome) →
      ((obj.type ≠ "checkbox" ∧ obj.type ≠ "cumulative") ∨
        (obj.scoring ≠ "binary" ∧ obj.scoring ≠ "proportional")) →
      computeWeeklyObjectivePoints prog obj ud = .ok 0 ∧
      (obj.frequency = "weekly" →
        computeObjectivePoints prog obj ud = .ok 0 ∧
        (objectiveTotalExpected wi today td el obj).map Prod.fst =
          .ok (((obj.weight * wi.num_complete_weeks * importanceMultiplier obj.importance : Int) :
            Rat)))) ∧
    (∀ (p : Program) (ud : UserData) (wi : WeeklyInfo) (today td el : Int)
        (obj : Objective),
      (parseDate? p.start_date).isSome → (parseDate? p.end_date).isSome → td ≠ 0 →
      ((obj.type ≠ "checkbox" ∧ obj.type ≠ "cumulative" ∧ obj.type ≠ "latest") ∨
        (obj.scoring ≠ "binary" ∧ obj.scoring ≠ "proportional")) →
      computeProgramObjectivePoints p obj ud = .ok 0 ∧
      (obj.frequency = "program" →
        computeObjectivePoints (some p) obj ud = .ok 0 ∧
        objectiveTotalExpected wi today td el obj =
          .ok (((obj.weight * importanceMultiplier obj.importance : Int) : Rat),
            (obj.weight : Rat) * ((el : Rat) / (td : Rat)) *
              ((importanceMultiplier obj.importance : Int) : Rat)))) := by
  refine ⟨?_, ?_, ?_, ?_⟩
  · intro prog ud wi today td el l1 l2 obj h1 h2 h3
    induction l1 with
    | nil =>
      have ht : objectiveTotalExpected wi today td el obj = .ok (0, 0) := by
        simp [objectiveTotalExpected, h1, h2, h3]
      have hc : computeObjectivePoints prog obj ud = .ok 0 := by
        simp [computeObjectivePoints, h1, h2, h3]
      rcases hfold : objectivesFold prog ud wi today td el l2 with e | ⟨ts, es, cs⟩ <;>
        simp [objectivesFold, ht, hc, hfold]
    | cons a l1 ih =>
      simp only [List.cons_append, objectivesFold, List.append_eq, ih]
  · intro prog ud wi today td el obj hfreq htype
    constructor
    · rcases dailyLoop_nonCheckbox obj htype ud with h | h <;>
        simp [computeObjectivePoints, hfreq, computeDailyObjectivePoints, h]
    · simp [objectiveTotalExpected, hfreq]
  · intro prog ud wi today td el obj hud hunsup
    have hzero := computeWeekly_unsupported prog obj ud hud hunsup
    refine ⟨hzero, ?_⟩
    intro hfreq
    constructor
    · simp +decide [computeObjectivePoints, hfreq, hzero]
    · simp +decide [objectiveTotalExpected, hfreq, Except.map]
  · intro p ud wi today td el obj hs he htd hunsup
    have hzero := computeProgram_unsupported p obj ud hs he hunsup
    have hcast : ¬ ((td : Rat) = 0) := by exact_mod_cast htd
    refine ⟨hzero, ?_⟩
    intro hfreq
    constructor
    · simp +decide [computeObjectivePoints, hfreq, hzero]
    · simp +decide [objectiveTotalExpected, hfreq, hcast]

/-- A weekly objective of unsupported type `latest`, for the C4 witness. -/
def objC4w : Objective := ⟨"w", "W", "latest", "weekly", "binary", 0, 1, "", 2, "bien"⟩

/-- A program objective of unknown scoring `madeup`, for the C4 witness. -/
def objC4p : Objective := ⟨"p", "Pr", "latest", "program", "madeup", 0, 1, "", 2, "bien"⟩

/-- Witness for C4 at a daily, a weekly and a program objective of unsupported
type or scoring: each earns 0. -/
theorem C4_unsupported_combination_witness :
    (computeObjectivePoints none objC4 [] = .ok 0 ∧
      objectiveTotalExpected ⟨0, 0, 0⟩ 0 3 1 objC4 =
        .ok (((objC4.weight * 3 * importanceMultiplier objC4.importance : Int) : Rat),
          ((objC4.weight * 1 * importanceMultiplier objC4.importance : Int) : Rat))) ∧
    computeWeeklyObjectivePoints (some progC10) objC4w [] = .ok 0 ∧
    computeProgramObjectivePoints progC7 objC4p [] = .ok 0 :=
  ⟨(C4_unsupported_combination).2.1 none [] ⟨0, 0, 0⟩ 0 3 1 objC4 rfl (by decide),
   ((C4_unsupported_combination).2.2.1 (some progC10) [] ⟨0, 0, 0⟩ 0 3 1 objC4w (by simp)
     (Or.inl ⟨by decide, by decide⟩)).1,
   ((C4_unsupported_combination).2.2.2 progC7 [] ⟨0, 0, 0⟩ 0 3 1 objC4p (by decide) (by decide)
     (by norm_num) (Or.inr ⟨by decide, by decide⟩)).1⟩

end GoalTracker
